import Mathlib

/-!
# Verification of the TLAB guidance-and-control core (ArduPilot `Attitude.cpp`)

Shallow embedding of the gain-scheduled lateral controller, the altitude /
throttle controller, the parametric path generator, the supervisory
line/circle mode-switch state machine, and the thrust-to-actuator inversion
of `Attitude.cpp`, together with proofs of the specification claims.

Machine floats are modelled by real numbers; `int32_t` casts of nonnegative
quantities are modelled by truncation toward zero on `ℝ → ℤ`.
-/

open Real

/-- ArduPilot `constrain_float(amt, low, high)`: clamp a real to `[low, high]`
(`amt < low ? low : (amt > high ? high : amt)`). -/
noncomputable def constrain_float (amt low high : ℝ) : ℝ :=
  if amt < low then low else if amt > high then high else amt

/-- ArduPilot `constrain_int32` / `constrain_int16`: clamp an integer. -/
def constrain_int32 (amt low high : ℤ) : ℤ :=
  if amt < low then low else if amt > high then high else amt

/-- `static_cast<int32_t>` of a float: truncation toward zero. -/
noncomputable def truncInt (x : ℝ) : ℤ :=
  if 0 ≤ x then ⌊x⌋ else ⌈x⌉

/-- ArduPilot `wrap_2PI`: wrap an angle into `[0, 2π)`. -/
noncomputable def wrap_2PI (x : ℝ) : ℝ :=
  x - 2 * π * ⌊x / (2 * π)⌋

/-- ArduPilot `wrap_PI`: wrap an angle into `[-π, π)`. -/
noncomputable def wrap_PI (x : ℝ) : ℝ :=
  wrap_2PI (x + π) - π

/-! ## Gain-scheduled lateral controller memberships
(`TLAB_2D_Trace_Controller`, `Attitude.cpp` lines 1964-2001) -/

/-- Nonlinear scheduling term `z1 = (v_g*cosf(chiF) + u_x)*kappa`. -/
noncomputable def TLAB_z1 (v_g chiF u_x kappa : ℝ) : ℝ :=
  (v_g * Real.cos chiF + u_x) * kappa

/-- Nonlinear scheduling term `z2 = v_g*sinf(chiF)/chiF`. -/
noncomputable def TLAB_z2 (v_g chiF : ℝ) : ℝ :=
  v_g * Real.sin chiF / chiF

/-- The raw (unclamped) membership pair `(K1, K2)`: `(1, 0)` when the heading
error `chiF` is exactly zero, otherwise the normalization of `z2` against the
configured range. -/
noncomputable def TLAB_K_pair (v_g chiF z2_min z2_max : ℝ) : ℝ × ℝ :=
  if chiF = 0 then (1, 0)
  else ((TLAB_z2 v_g chiF - z2_min) / (z2_max - z2_min),
        (z2_max - TLAB_z2 v_g chiF) / (z2_max - z2_min))

/-- The raw membership pair `(M1, M2)`: normalization of `z1` against the
configured range (the denominator is a configured constant). -/
noncomputable def TLAB_M_pair (z1 z1_min z1_max : ℝ) : ℝ × ℝ :=
  ((z1 - z1_min) / (z1_max - z1_min), (z1_max - z1) / (z1_max - z1_min))

/-- The upper/lower cut applied to a membership pair: `if (p1 > 1) {p1 = 1;
p2 = 0;} else if (p1 < 0) {p1 = 0; p2 = 1;}`. -/
noncomputable def TLAB_clamp_pair (p : ℝ × ℝ) : ℝ × ℝ :=
  if p.1 > 1 then (1, 0) else if p.1 < 0 then (0, 1) else p

/-- The four lateral blend weights `h_chi[0..3]`, the pairwise products of the
clamped `(K1, K2)` and `(M1, M2)` pairs. -/
noncomputable def TLAB_h_chi (v_g chiF u_x kappa z1_min z1_max z2_min z2_max : ℝ) :
    ℝ × ℝ × ℝ × ℝ :=
  let K := TLAB_clamp_pair (TLAB_K_pair v_g chiF z2_min z2_max)
  let M := TLAB_clamp_pair (TLAB_M_pair (TLAB_z1 v_g chiF u_x kappa) z1_min z1_max)
  (K.1 * M.1, K.2 * M.1, K.1 * M.2, K.2 * M.2)

/-- A raw pair whose components sum to 1 still sums to 1 after the upper/lower
cut. -/
lemma TLAB_clamp_pair_sum {p : ℝ × ℝ} (h : p.1 + p.2 = 1) :
    (TLAB_clamp_pair p).1 + (TLAB_clamp_pair p).2 = 1 := by
  unfold TLAB_clamp_pair
  split_ifs <;> simp [h]

/-- The raw `(K1, K2)` pair sums to 1 whenever the configured fuzzy range is
nondegenerate. -/
lemma TLAB_K_pair_sum (v_g chiF z2_min z2_max : ℝ) (h : z2_max ≠ z2_min) :
    (TLAB_K_pair v_g chiF z2_min z2_max).1 + (TLAB_K_pair v_g chiF z2_min z2_max).2 = 1 := by
  unfold TLAB_K_pair
  split_ifs with hchi
  · norm_num
  · have hd : z2_max - z2_min ≠ 0 := sub_ne_zero.mpr h
    field_simp

/-- The raw `(M1, M2)` pair sums to 1 whenever the configured fuzzy range is
nondegenerate. -/
lemma TLAB_M_pair_sum (z1 z1_min z1_max : ℝ) (h : z1_max ≠ z1_min) :
    (TLAB_M_pair z1 z1_min z1_max).1 + (TLAB_M_pair z1 z1_min z1_max).2 = 1 := by
  unfold TLAB_M_pair
  have hd : z1_max - z1_min ≠ 0 := sub_ne_zero.mpr h
  field_simp

/-- The four lateral weights sum to 1. -/
lemma TLAB_h_chi_sum (v_g chiF u_x kappa z1_min z1_max z2_min z2_max : ℝ)
    (h1 : z1_max ≠ z1_min) (h2 : z2_max ≠ z2_min) :
    (TLAB_h_chi v_g chiF u_x kappa z1_min z1_max z2_min z2_max).1 +
    (TLAB_h_chi v_g chiF u_x kappa z1_min z1_max z2_min z2_max).2.1 +
    (TLAB_h_chi v_g chiF u_x kappa z1_min z1_max z2_min z2_max).2.2.1 +
    (TLAB_h_chi v_g chiF u_x kappa z1_min z1_max z2_min z2_max).2.2.2 = 1 := by
  have hK := TLAB_clamp_pair_sum (TLAB_K_pair_sum v_g chiF z2_min z2_max h2)
  have hM := TLAB_clamp_pair_sum (TLAB_M_pair_sum (TLAB_z1 v_g chiF u_x kappa) z1_min z1_max h1)
  unfold TLAB_h_chi
  set K := TLAB_clamp_pair (TLAB_K_pair v_g chiF z2_min z2_max)
  set M := TLAB_clamp_pair (TLAB_M_pair (TLAB_z1 v_g chiF u_x kappa) z1_min z1_max)
  simp only
  nlinarith [hK, hM]

/-! ## LMI altitude controller memberships
(`TLAB_Throttle_Controller` case `TPARAM_cha_pow == 6`, lines 752-773, and
the gain/range tables of `switch_controller_alt`, lines 494-621) -/

/-- One LMI membership pair, e.g. `mem_M[0] = constrain_float((max-z)/(max-min),0,1)`,
`mem_M[1] = constrain_float((z-min)/(max-min),0,1)`; `mx`/`mn` are the
configured max/min for the scheduling variable `zv`. -/
noncomputable def lmi_mem_pair (mx mn zv : ℝ) : ℝ × ℝ :=
  (constrain_float ((mx - zv) / (mx - mn)) 0 1,
   constrain_float ((zv - mn) / (mx - mn)) 0 1)

/-- The max/min table `maxmin_z[3][2]` selected by `switch_controller_alt`:
three `(max, min)` pairs for `z1, z2, z3`, keyed by the configuration index. -/
noncomputable def switch_controller_alt_maxmin (num : ℤ) : (ℝ × ℝ) × (ℝ × ℝ) × (ℝ × ℝ) :=
  if num = 1 then ((-0.19956, -0.80692), (13.9932, 10.2479), (0.31838, 0.073926))
  else if num = 2 then ((-0.19956, -0.80692), (13.9932, 10.2479), (0.31838, 0.073926))
  else if num = 3 then ((-0.19956, -0.80692), (13.2529, 11.1097), (0.25977, 0.13707))
  else ((-0.19956, -0.80692), (13.2529, 11.1097), (0.25977, 0.13707))

/-- The eight LMI blend weights `h[0..7] = mem_M[i]*mem_N[j]*mem_L[k]` in the
binary enumeration order of the source's triple loop. -/
noncomputable def lmi_h (num : ℤ) (z1 z2 z3 : ℝ) : List ℝ :=
  let t := switch_controller_alt_maxmin num
  let memM := lmi_mem_pair t.1.1 t.1.2 z1
  let memN := lmi_mem_pair t.2.1.1 t.2.1.2 z2
  let memL := lmi_mem_pair t.2.2.1 t.2.2.2 z3
  [memM.1 * memN.1 * memL.1, memM.1 * memN.1 * memL.2,
   memM.1 * memN.2 * memL.1, memM.1 * memN.2 * memL.2,
   memM.2 * memN.1 * memL.1, memM.2 * memN.1 * memL.2,
   memM.2 * memN.2 * memL.1, memM.2 * memN.2 * memL.2]

/-- An LMI membership pair sums to 1 whenever the configured range is
nondegenerate (`min < max`). -/
lemma lmi_mem_pair_sum {mx mn : ℝ} (h : mn < mx) (zv : ℝ) :
    (lmi_mem_pair mx mn zv).1 + (lmi_mem_pair mx mn zv).2 = 1 := by
  have hd : 0 < mx - mn := by linarith
  have hsum : (mx - zv) / (mx - mn) + (zv - mn) / (mx - mn) = 1 := by
    field_simp
  simp only [lmi_mem_pair, constrain_float]
  set a := (mx - zv) / (mx - mn) with ha
  set b := (zv - mn) / (mx - mn) with hb
  by_cases ha0 : a < 0
  · rw [if_pos ha0, if_neg (by linarith : ¬ b < 0), if_pos (by linarith : b > 1)]
    norm_num
  · by_cases ha1 : a > 1
    · rw [if_neg ha0, if_pos ha1, if_pos (by linarith : b < 0)]
      norm_num
    · push_neg at ha0 ha1
      rw [if_neg (not_lt.mpr ha0), if_neg (not_lt.mpr ha1),
        if_neg (not_lt.mpr (by linarith : (0:ℝ) ≤ b)),
        if_neg (not_lt.mpr (by linarith : b ≤ 1))]
      exact hsum

/-- Product expansion: the eight triple products of three pairs each summing
to 1 sum to 1. -/
lemma lmi_triple_sum (mxM mnM mxN mnN mxL mnL z1 z2 z3 : ℝ)
    (hM : mnM < mxM) (hN : mnN < mxN) (hL : mnL < mxL) :
    (lmi_mem_pair mxM mnM z1).1 * (lmi_mem_pair mxN mnN z2).1 * (lmi_mem_pair mxL mnL z3).1 +
    (lmi_mem_pair mxM mnM z1).1 * (lmi_mem_pair mxN mnN z2).1 * (lmi_mem_pair mxL mnL z3).2 +
    (lmi_mem_pair mxM mnM z1).1 * (lmi_mem_pair mxN mnN z2).2 * (lmi_mem_pair mxL mnL z3).1 +
    (lmi_mem_pair mxM mnM z1).1 * (lmi_mem_pair mxN mnN z2).2 * (lmi_mem_pair mxL mnL z3).2 +
    (lmi_mem_pair mxM mnM z1).2 * (lmi_mem_pair mxN mnN z2).1 * (lmi_mem_pair mxL mnL z3).1 +
    (lmi_mem_pair mxM mnM z1).2 * (lmi_mem_pair mxN mnN z2).1 * (lmi_mem_pair mxL mnL z3).2 +
    (lmi_mem_pair mxM mnM z1).2 * (lmi_mem_pair mxN mnN z2).2 * (lmi_mem_pair mxL mnL z3).1 +
    (lmi_mem_pair mxM mnM z1).2 * (lmi_mem_pair mxN mnN z2).2 * (lmi_mem_pair mxL mnL z3).2 = 1 := by
  have h1 := lmi_mem_pair_sum hM z1
  have h2 := lmi_mem_pair_sum hN z2
  have h3 := lmi_mem_pair_sum hL z3
  set a := (lmi_mem_pair mxM mnM z1).1
  set a' := (lmi_mem_pair mxM mnM z1).2
  set b := (lmi_mem_pair mxN mnN z2).1
  set b' := (lmi_mem_pair mxN mnN z2).2
  set c := (lmi_mem_pair mxL mnL z3).1
  set c' := (lmi_mem_pair mxL mnL z3).2
  have expand : a * b * c + a * b * c' + a * b' * c + a * b' * c' +
      a' * b * c + a' * b * c' + a' * b' * c + a' * b' * c' =
      (a + a') * (b + b') * (c + c') := by ring
  rw [expand, h1, h2, h3]
  norm_num

/-- For every configuration index and all scheduling inputs, the eight LMI
weights sum to 1: every range in every selectable table is nondegenerate. -/
lemma lmi_h_sum (num : ℤ) (z1 z2 z3 : ℝ) : (lmi_h num z1 z2 z3).sum = 1 := by
  unfold lmi_h switch_controller_alt_maxmin
  split_ifs
  · simp only [List.sum_cons, List.sum_nil, add_zero]
    have H := lmi_triple_sum (-0.19956) (-0.80692) 13.9932 10.2479 0.31838 0.073926
      z1 z2 z3 (by norm_num) (by norm_num) (by norm_num)
    linarith [H]
  · simp only [List.sum_cons, List.sum_nil, add_zero]
    have H := lmi_triple_sum (-0.19956) (-0.80692) 13.9932 10.2479 0.31838 0.073926
      z1 z2 z3 (by norm_num) (by norm_num) (by norm_num)
    linarith [H]
  · simp only [List.sum_cons, List.sum_nil, add_zero]
    have H := lmi_triple_sum (-0.19956) (-0.80692) 13.2529 11.1097 0.25977 0.13707
      z1 z2 z3 (by norm_num) (by norm_num) (by norm_num)
    linarith [H]
  · simp only [List.sum_cons, List.sum_nil, add_zero]
    have H := lmi_triple_sum (-0.19956) (-0.80692) 13.2529 11.1097 0.25977 0.13707
      z1 z2 z3 (by norm_num) (by norm_num) (by norm_num)
    linarith [H]

/-! ## Comparison fuzzy controller memberships
(`calc_controller`, lines 1021-1057) -/

/-- Ground-speed membership pair `m_mem` of `calc_controller`. -/
noncomputable def calc_controller_m_mem (v_g Vg_min Vg_max : ℝ) : ℝ × ℝ :=
  if v_g > Vg_max then (1, 0)
  else if v_g < Vg_min then (0, 1)
  else ((v_g - Vg_min) / (Vg_max - Vg_min), 1 - (v_g - Vg_min) / (Vg_max - Vg_min))

/-- Heading membership pair `n_mem` of `calc_controller` (the `sin(x)/x`
comparison membership). -/
noncomputable def calc_controller_n_mem (x2 phi_max : ℝ) : ℝ × ℝ :=
  if |x2| < 2 * 180 / π then (1, 0)
  else if |x2| > phi_max then (0, 1)
  else
    let b1 : ℝ := 1
    let b2 : ℝ := Real.sin phi_max / phi_max
    let n0 : ℝ := (Real.sin x2 - b2 * x2) / ((b1 - b2) * x2)
    (n0, 1 - n0)

/-- The four comparison-fuzzy weights `h_mem[0..3]`: for `rule_num == 2` the
ground-speed pair padded with zeros, otherwise the pairwise products of
`m_mem` and `n_mem`. -/
noncomputable def calc_controller_h_mem (rule_num : ℕ) (v_g Vg_min Vg_max x2 phi_max : ℝ) :
    ℝ × ℝ × ℝ × ℝ :=
  let m := calc_controller_m_mem v_g Vg_min Vg_max
  if rule_num = 2 then (m.1, m.2, 0, 0)
  else
    let n := calc_controller_n_mem x2 phi_max
    (m.1 * n.1, m.1 * n.2, m.2 * n.1, m.2 * n.2)

/-- `m_mem` sums to 1 in every branch. -/
lemma calc_controller_m_mem_sum (v_g Vg_min Vg_max : ℝ) :
    (calc_controller_m_mem v_g Vg_min Vg_max).1 +
    (calc_controller_m_mem v_g Vg_min Vg_max).2 = 1 := by
  unfold calc_controller_m_mem
  split_ifs <;> simp

/-- `n_mem` sums to 1 in every branch. -/
lemma calc_controller_n_mem_sum (x2 phi_max : ℝ) :
    (calc_controller_n_mem x2 phi_max).1 + (calc_controller_n_mem x2 phi_max).2 = 1 := by
  unfold calc_controller_n_mem
  split_ifs <;> simp

/-- The four comparison-fuzzy weights sum to 1 unconditionally. -/
lemma calc_controller_h_mem_sum (rule_num : ℕ) (v_g Vg_min Vg_max x2 phi_max : ℝ) :
    (calc_controller_h_mem rule_num v_g Vg_min Vg_max x2 phi_max).1 +
    (calc_controller_h_mem rule_num v_g Vg_min Vg_max x2 phi_max).2.1 +
    (calc_controller_h_mem rule_num v_g Vg_min Vg_max x2 phi_max).2.2.1 +
    (calc_controller_h_mem rule_num v_g Vg_min Vg_max x2 phi_max).2.2.2 = 1 := by
  have hm := calc_controller_m_mem_sum v_g Vg_min Vg_max
  have hn := calc_controller_n_mem_sum x2 phi_max
  unfold calc_controller_h_mem
  split_ifs <;> simp only <;> nlinarith [hm, hn]

/-- After the upper/lower cut, a pair that raw-sums to 1 lies in `[0,1]²` and
still sums to 1. -/
lemma TLAB_clamp_pair_mem {p : ℝ × ℝ} (h : p.1 + p.2 = 1) :
    0 ≤ (TLAB_clamp_pair p).1 ∧ (TLAB_clamp_pair p).1 ≤ 1 ∧
    0 ≤ (TLAB_clamp_pair p).2 ∧ (TLAB_clamp_pair p).2 ≤ 1 := by
  unfold TLAB_clamp_pair
  split_ifs with hgt hlt
  · norm_num
  · norm_num
  · push_neg at hgt hlt
    exact ⟨hlt, hgt, by linarith, by linarith⟩

/-- C1: for every value of the scheduling inputs, the combined blend weights
sum to 1: the four lateral weights `h_chi[0..3]` (pairwise products of the
clamped `(K1,K2)` and `(M1,M2)` pairs), the eight LMI altitude weights
`h[0..7]` (triple products of `mem_M`, `mem_N`, `mem_L` for every selectable
max/min table), and the four comparison-fuzzy weights `h_mem[0..3]`, at and
beyond the configured min/max boundaries included; the lateral case assumes
the configured scheduling ranges are nondegenerate. -/
theorem C1_blend_weights_sum_to_one
    (v_g chiF u_x kappa z1_min z1_max z2_min z2_max : ℝ)
    (h1 : z1_max ≠ z1_min) (h2 : z2_max ≠ z2_min)
    (num : ℤ) (za zb zc : ℝ)
    (rule_num : ℕ) (vg2 Vg_min Vg_max x2 phi_max : ℝ) :
    ((TLAB_h_chi v_g chiF u_x kappa z1_min z1_max z2_min z2_max).1 +
     (TLAB_h_chi v_g chiF u_x kappa z1_min z1_max z2_min z2_max).2.1 +
     (TLAB_h_chi v_g chiF u_x kappa z1_min z1_max z2_min z2_max).2.2.1 +
     (TLAB_h_chi v_g chiF u_x kappa z1_min z1_max z2_min z2_max).2.2.2 = 1) ∧
    (lmi_h num za zb zc).sum = 1 ∧
    ((calc_controller_h_mem rule_num vg2 Vg_min Vg_max x2 phi_max).1 +
     (calc_controller_h_mem rule_num vg2 Vg_min Vg_max x2 phi_max).2.1 +
     (calc_controller_h_mem rule_num vg2 Vg_min Vg_max x2 phi_max).2.2.1 +
     (calc_controller_h_mem rule_num vg2 Vg_min Vg_max x2 phi_max).2.2.2 = 1) :=
  ⟨TLAB_h_chi_sum v_g chiF u_x kappa z1_min z1_max z2_min z2_max h1 h2,
   lmi_h_sum num za zb zc,
   calc_controller_h_mem_sum rule_num vg2 Vg_min Vg_max x2 phi_max⟩

/-- Witness for C1 at concrete scheduling inputs and ranges. -/
theorem C1_blend_weights_sum_to_one_witness :
    ((1:ℝ) ≠ 0 ∧ (1:ℝ) ≠ 0) ∧
    (((TLAB_h_chi 5 0 0 0 0 1 0 1).1 + (TLAB_h_chi 5 0 0 0 0 1 0 1).2.1 +
      (TLAB_h_chi 5 0 0 0 0 1 0 1).2.2.1 + (TLAB_h_chi 5 0 0 0 0 1 0 1).2.2.2 = 1) ∧
     (lmi_h 1 0 0 0).sum = 1 ∧
     ((calc_controller_h_mem 2 5 3 10 0 1).1 + (calc_controller_h_mem 2 5 3 10 0 1).2.1 +
      (calc_controller_h_mem 2 5 3 10 0 1).2.2.1 +
      (calc_controller_h_mem 2 5 3 10 0 1).2.2.2 = 1)) :=
  ⟨⟨one_ne_zero, one_ne_zero⟩,
   C1_blend_weights_sum_to_one 5 0 0 0 0 1 0 1 one_ne_zero one_ne_zero
     1 0 0 0 2 5 3 10 0 1⟩

/-- C4: when the heading error `chiF` is exactly zero the membership pair
`(K1, K2)` is `(1, 0)` (so the turn-rate command never divides by zero);
for any other `chiF` the pair is the normalization of
`z2 = v_g*sin(chiF)/chiF` against the configured range, clamped to `[0,1]`,
and the clamped pair always lies in `[0,1]²`. -/
theorem C4_zero_heading_error_membership (v_g z2_min z2_max : ℝ)
    (h : z2_min < z2_max) :
    TLAB_clamp_pair (TLAB_K_pair v_g 0 z2_min z2_max) = (1, 0) ∧
    (∀ chiF : ℝ, chiF ≠ 0 →
      TLAB_K_pair v_g chiF z2_min z2_max =
        ((TLAB_z2 v_g chiF - z2_min) / (z2_max - z2_min),
         (z2_max - TLAB_z2 v_g chiF) / (z2_max - z2_min)) ∧
      0 ≤ (TLAB_clamp_pair (TLAB_K_pair v_g chiF z2_min z2_max)).1 ∧
      (TLAB_clamp_pair (TLAB_K_pair v_g chiF z2_min z2_max)).1 ≤ 1 ∧
      0 ≤ (TLAB_clamp_pair (TLAB_K_pair v_g chiF z2_min z2_max)).2 ∧
      (TLAB_clamp_pair (TLAB_K_pair v_g chiF z2_min z2_max)).2 ≤ 1) := by
  constructor
  · unfold TLAB_K_pair TLAB_clamp_pair
    norm_num
  · intro chiF hchi
    refine ⟨?_, ?_⟩
    · unfold TLAB_K_pair
      rw [if_neg hchi]
    · exact TLAB_clamp_pair_mem (TLAB_K_pair_sum v_g chiF z2_min z2_max (ne_of_gt h))

/-- Witness for C4 at `v_g = 5`, range `[0, 1]`, nonzero heading error `1`. -/
theorem C4_zero_heading_error_membership_witness :
    (0:ℝ) < 1 ∧
    TLAB_clamp_pair (TLAB_K_pair 5 0 0 1) = (1, 0) ∧
    (TLAB_K_pair 5 1 0 1 =
       ((TLAB_z2 5 1 - 0) / (1 - 0), (1 - TLAB_z2 5 1) / (1 - 0)) ∧
     0 ≤ (TLAB_clamp_pair (TLAB_K_pair 5 1 0 1)).1 ∧
     (TLAB_clamp_pair (TLAB_K_pair 5 1 0 1)).1 ≤ 1 ∧
     0 ≤ (TLAB_clamp_pair (TLAB_K_pair 5 1 0 1)).2 ∧
     (TLAB_clamp_pair (TLAB_K_pair 5 1 0 1)).2 ≤ 1) :=
  ⟨by norm_num,
   (C4_zero_heading_error_membership 5 0 1 (by norm_num)).1,
   (C4_zero_heading_error_membership 5 0 1 (by norm_num)).2 1 one_ne_zero⟩

/-! ## Path generator (`TLAB_generate_2D_Path`, lines 1447-1906)

Geodetic helpers (`location_diff`, `get_distance`) are modelled on a local
tangent plane: a `Location` is a pair of planar (north, east) coordinates in
meters, `location_diff a b = b - a` and `get_distance` is the Euclidean
distance. -/

/-- `location_diff(a, b)`: displacement vector from `a` to `b` (north, east). -/
def location_diff (a b : ℝ × ℝ) : ℝ × ℝ :=
  (b.1 - a.1, b.2 - a.2)

/-- `get_distance(a, b)`: Euclidean distance on the local tangent plane. -/
noncomputable def get_distance (a b : ℝ × ℝ) : ℝ :=
  Real.sqrt ((b.1 - a.1) ^ 2 + (b.2 - a.2) ^ 2)

/-- The swap `Px = P.y; Py = P.x; P.x = Px; P.y = Py` applied after every
`location_diff` call in the path generator (N,E -> x,y). -/
def swap_xy (p : ℝ × ℝ) : ℝ × ℝ :=
  (p.2, p.1)

/-- C `atan2f(y, x)` on the reals (the signed-zero distinctions of IEEE
floats collapse to the `x = 0` cases). -/
noncomputable def atan2 (y x : ℝ) : ℝ :=
  if 0 < x then Real.arctan (y / x)
  else if x < 0 ∧ 0 ≤ y then Real.arctan (y / x) + π
  else if x < 0 ∧ y < 0 then Real.arctan (y / x) - π
  else if x = 0 ∧ 0 < y then π / 2
  else if x = 0 ∧ y < 0 then -π / 2
  else 0

/-- Output block of one `Path_Mode` case of the `switch (Path_Mode)`
statement: the updated parameter `zeta` and the desired path state. -/
structure PathOut where
  zeta : ℝ
  dot_zeta : ℝ
  x_d : ℝ
  y_d : ℝ
  chi_d : ℝ
  dot_chi_d : ℝ
  kappa : ℝ

/-- `Path_Mode` case 0: straight segment between `P0` and `P1`
(lines 1814-1823). -/
noncomputable def path_mode0 (s dist_WPs zeta_prev dt : ℝ) (P0 P1 : ℝ × ℝ) : PathOut :=
  let zeta := s / dist_WPs
  { zeta := zeta
    dot_zeta := (zeta - zeta_prev) / dt
    x_d := (1 - zeta) * P0.1 + zeta * P1.1
    y_d := (1 - zeta) * P0.2 + zeta * P1.2
    chi_d := - atan2 (P1.2 - P0.2) (P1.1 - P0.1)
    dot_chi_d := 0
    kappa := 0 }

/-- Modelled from the spec: "`chi_d` equals the bearing from P0 to P1" -- the
bearing (course angle) of the displacement from `P0` to `P1` in the path
generator's planar x,y frame. -/
noncomputable def bearing_xy (P0 P1 : ℝ × ℝ) : ℝ :=
  atan2 (P1.2 - P0.2) (P1.1 - P0.1)

/-- C3: for the straight-segment primitive with `P0 = (0,0)`, `P1 = (100,0)`
(so `dist_WPs = 100`), `zeta = s/100` for every arc length `s`; at `s = 50`
the desired position is `(50, 0)`, `chi_d` equals the bearing from `P0` to
`P1`, and `kappa = 0`. -/
theorem C3_straight_segment (s zeta_prev dt : ℝ) :
    (path_mode0 s 100 zeta_prev dt (0, 0) (100, 0)).zeta = s / 100 ∧
    (path_mode0 50 100 zeta_prev dt (0, 0) (100, 0)).x_d = 50 ∧
    (path_mode0 50 100 zeta_prev dt (0, 0) (100, 0)).y_d = 0 ∧
    (path_mode0 50 100 zeta_prev dt (0, 0) (100, 0)).chi_d =
      bearing_xy (0, 0) (100, 0) ∧
    (path_mode0 50 100 zeta_prev dt (0, 0) (100, 0)).kappa = 0 := by
  have harg : atan2 (0 - 0) (100 - 0) = 0 := by
    unfold atan2
    rw [if_pos (by norm_num : (0:ℝ) < 100 - 0)]
    norm_num
  refine ⟨rfl, by norm_num [path_mode0], by norm_num [path_mode0], ?_, rfl⟩
  show - atan2 ((0:ℝ) - 0) (100 - 0) = bearing_xy (0, 0) (100, 0)
  unfold bearing_xy
  rw [harg]
  norm_num

/-! ## Lissajous arc-length search (`Path_Mode` cases 3 and 6,
lines 1845-1855 and 1884-1894)

The `while (1)` loop accumulates `dPdzeta * dzeta` into the persistent
accumulator `s_calc`, starting from the persistent index `i_zeta`, and stops
as soon as the accumulator reaches the target arc length `s`. -/

/-- One integrand sample:
`dPdzeta = r*sqrt(25*sinf(5*dzeta*i)^2 + 36*sinf(6*dzeta*i)^2)`. -/
noncomputable def lissajous_dPdzeta (r d : ℝ) (i : ℕ) : ℝ :=
  r * Real.sqrt (25 * Real.sin (5 * d * i) ^ 2 + 36 * Real.sin (6 * d * i) ^ 2)

/-- The accumulator value after `n + 1` loop iterations: `s_calc` starts at
`s0` with index `i0` and each iteration adds `dPdzeta * dzeta` before the
exit test (the loop body always runs at least once). -/
noncomputable def lissajous_s_calc (r d s0 : ℝ) (i0 : ℕ) : ℕ → ℝ
  | 0 => s0 + lissajous_dPdzeta r d i0 * d
  | n + 1 => lissajous_s_calc r d s0 i0 n + lissajous_dPdzeta r d (i0 + n + 1) * d

/-- Termination of the search loop: some partial sum reaches the target `s`. -/
def lissajous_terminates (r d s0 s : ℝ) (i0 : ℕ) : Prop :=
  ∃ n, s ≤ lissajous_s_calc r d s0 i0 n

open Classical in
/-- The parameter `zeta = i_zeta * dzeta` returned by the search when it
terminates (the source loop runs forever otherwise; the value in the
non-terminating branch is arbitrary). -/
noncomputable def lissajous_zeta (r d s0 s : ℝ) (i0 : ℕ) : ℝ :=
  if h : lissajous_terminates r d s0 s i0 then ((i0 + Nat.find h : ℕ) : ℝ) * d
  else 0

/-- With a zero integration step the accumulator never moves. -/
lemma lissajous_s_calc_zero_step (s0 : ℝ) (i0 n : ℕ) (r : ℝ) :
    lissajous_s_calc r 0 s0 i0 n = s0 := by
  induction n with
  | zero => simp [lissajous_s_calc]
  | succ n ih => simp [lissajous_s_calc, ih]

/-- C2 counterexample: the claim "the forward arc-length integration loop is
bounded and returns a zeta for every non-negative s" fails as stated: with
integration step `dzeta = 0` (and `r = 1`, accumulator starting at `0`), the
loop never reaches the target `s = 1`, so the search does not terminate. -/
theorem C2_search_nonterminating_counterexample :
    ¬ lissajous_terminates 1 0 0 1 0 := by
  rintro ⟨n, hn⟩
  rw [lissajous_s_calc_zero_step] at hn
  norm_num at hn

/-- C2 (amended): the search terminates exactly when some forward partial
arc-length sum reaches `s`; in that case it stops at the first such
iteration `n` and returns `zeta = (i_zeta + n) * dzeta`. -/
theorem C2_search_returns_first_crossing (r d s0 s : ℝ) (i0 : ℕ)
    (h : lissajous_terminates r d s0 s i0) :
    ∃ n, s ≤ lissajous_s_calc r d s0 i0 n ∧
      (∀ m, m < n → lissajous_s_calc r d s0 i0 m < s) ∧
      lissajous_zeta r d s0 s i0 = ((i0 + n : ℕ) : ℝ) * d := by
  classical
  refine ⟨Nat.find h, Nat.find_spec h, ?_, ?_⟩
  · intro m hm
    have := Nat.find_min h hm
    linarith [lt_of_not_le this]
  · unfold lissajous_zeta
    rw [dif_pos h]

/-- Witness for the amended C2: with `r = d = s0 = 0` and target `s = 0`,
the very first iteration already reaches the target. -/
theorem C2_search_returns_first_crossing_witness :
    lissajous_terminates 0 0 0 0 0 ∧
    (∃ n, (0:ℝ) ≤ lissajous_s_calc 0 0 0 0 n ∧
      (∀ m, m < n → lissajous_s_calc 0 0 0 0 m < 0) ∧
      lissajous_zeta 0 0 0 0 0 = ((0 + n : ℕ) : ℝ) * 0) :=
  have hterm : lissajous_terminates 0 0 0 0 0 :=
    ⟨0, by simp [lissajous_s_calc, lissajous_dPdzeta]⟩
  ⟨hterm, C2_search_returns_first_crossing 0 0 0 0 0 hterm⟩

/-! ## Thrust-to-actuator inversion (`thrust_to_percent`, lines 801-844) -/

/-- The calibration constant `a` of `thrust_to_percent`. -/
noncomputable def thrust_cal_a : ℝ := 0.002287471638222

/-- The calibration constant `c` of `thrust_to_percent`. -/
noncomputable def thrust_cal_c : ℝ := 0.069756864241495

/-- `airpower`: the equilibrium (neutral) thrust computed from the trim pitch
`theta_a` [deg] and airspeed `V_a`
(`(1/cosf(theta_a*pi/180))*(0.1059*V_a*V_a - 0.3342*V_a + 1.6227)`). -/
noncomputable def airpower (theta_a V_a : ℝ) : ℝ :=
  (1 / Real.cos (theta_a * π / 180)) * (0.1059 * V_a * V_a - 0.3342 * V_a + 1.6227)

/-- `thrust_to_percent(thrust)`: the thrust-to-actuator inversion.
`kk = airpower/(a*neutral_t^2 + c)`; the returned value is `0` below the
`0.3256` cutoff and otherwise `sqrtf((thrust - c*kk)/(a*kk))` truncated to an
integer and clamped to `[0, TPARAM_MAX_slo]`. -/
noncomputable def thrust_to_percent (theta_a V_a neutral_t : ℝ) (MAX_slo : ℤ)
    (thrust : ℝ) : ℤ :=
  let kk := airpower theta_a V_a / (thrust_cal_a * neutral_t * neutral_t + thrust_cal_c)
  let value : ℤ := truncInt (Real.sqrt ((thrust - thrust_cal_c * kk) / (thrust_cal_a * kk)))
  if thrust < 0.3256 then 0 else constrain_int32 value 0 MAX_slo

/-- `constrain_int32` lands in `[low, high]` whenever `low ≤ high`. -/
lemma constrain_int32_mem {low high : ℤ} (h : low ≤ high) (amt : ℤ) :
    low ≤ constrain_int32 amt low high ∧ constrain_int32 amt low high ≤ high := by
  unfold constrain_int32
  split_ifs with h1 h2
  · exact ⟨le_refl _, h⟩
  · exact ⟨h, le_refl _⟩
  · exact ⟨le_of_not_lt h1, le_of_not_lt h2⟩

/-- C5: the thrust inversion (i) returns exactly 0 below the configured
cutoff `0.3256`; (ii) at the calibration neutral point (`thrust = airpower`,
the computed equilibrium thrust) it returns the configured neutral actuator
value `neutral_t` within tolerance 1; (iii) every return value lies in
`[0, MAX_slo]`. -/
theorem C5_thrust_to_percent (theta_a V_a neutral_t : ℝ) (MAX_slo : ℤ)
    (hap : 0.3256 ≤ airpower theta_a V_a)
    (hnt0 : 0 ≤ neutral_t) (hntM : neutral_t ≤ (MAX_slo : ℝ)) :
    (∀ thrust : ℝ, thrust < 0.3256 →
        thrust_to_percent theta_a V_a neutral_t MAX_slo thrust = 0) ∧
    |(thrust_to_percent theta_a V_a neutral_t MAX_slo (airpower theta_a V_a) : ℝ)
        - neutral_t| ≤ 1 ∧
    (∀ thrust : ℝ, 0 ≤ thrust_to_percent theta_a V_a neutral_t MAX_slo thrust ∧
        thrust_to_percent theta_a V_a neutral_t MAX_slo thrust ≤ MAX_slo) := by
  have hac : 0 < thrust_cal_a * neutral_t * neutral_t + thrust_cal_c := by
    have h1 : 0 ≤ thrust_cal_a * neutral_t * neutral_t := by
      unfold thrust_cal_a
      positivity
    unfold thrust_cal_c
    nlinarith [h1]
  have hMAX : (0:ℤ) ≤ MAX_slo := by
    exact_mod_cast le_trans hnt0 hntM
  refine ⟨?_, ?_, ?_⟩
  · intro thrust hcut
    unfold thrust_to_percent
    rw [if_pos hcut]
  · unfold thrust_to_percent
    rw [if_neg (not_lt.mpr hap)]
    set kk := airpower theta_a V_a /
      (thrust_cal_a * neutral_t * neutral_t + thrust_cal_c) with hkkdef
    have hap0 : 0 < airpower theta_a V_a := by linarith
    have hkk0 : 0 < kk := div_pos hap0 hac
    have ha0 : (0:ℝ) < thrust_cal_a := by unfold thrust_cal_a; norm_num
    have harg : (airpower theta_a V_a - thrust_cal_c * kk) / (thrust_cal_a * kk) =
        neutral_t * neutral_t := by
      rw [hkkdef]
      field_simp
      ring
    have hsqrt : Real.sqrt ((airpower theta_a V_a - thrust_cal_c * kk) /
        (thrust_cal_a * kk)) = neutral_t := by
      rw [harg, ← pow_two]
      exact Real.sqrt_sq hnt0
    rw [hsqrt]
    unfold truncInt
    rw [if_pos hnt0]
    have hfl0 : (0:ℤ) ≤ ⌊neutral_t⌋ := by
      rw [Int.le_floor]
      exact_mod_cast hnt0
    have hflM : ⌊neutral_t⌋ ≤ MAX_slo := by
      have := Int.floor_le_floor hntM
      simpa using this
    unfold constrain_int32
    rw [if_neg (not_lt.mpr hfl0), if_neg (not_lt.mpr hflM)]
    rw [abs_le]
    constructor
    · have := Int.lt_floor_add_one neutral_t
      linarith
    · have := Int.floor_le neutral_t
      linarith
  · intro thrust
    unfold thrust_to_percent
    split_ifs with hcut
    · exact ⟨le_refl 0, hMAX⟩
    · exact constrain_int32_mem hMAX _

/-- Witness for C5: trim pitch 0 deg, airspeed 10 m/s, neutral actuator 5,
maximum actuator 80. -/
theorem C5_thrust_to_percent_witness :
    ((0.3256:ℝ) ≤ airpower 0 10 ∧ (0:ℝ) ≤ 5 ∧ (5:ℝ) ≤ ((80:ℤ) : ℝ)) ∧
    ((∀ thrust : ℝ, thrust < 0.3256 → thrust_to_percent 0 10 5 80 thrust = 0) ∧
     |(thrust_to_percent 0 10 5 80 (airpower 0 10) : ℝ) - 5| ≤ 1 ∧
     (∀ thrust : ℝ, 0 ≤ thrust_to_percent 0 10 5 80 thrust ∧
        thrust_to_percent 0 10 5 80 thrust ≤ 80)) := by
  have hap : (0.3256:ℝ) ≤ airpower 0 10 := by
    unfold airpower
    rw [show (0:ℝ) * π / 180 = 0 by ring, Real.cos_zero]
    norm_num
  exact ⟨⟨hap, by norm_num, by norm_num⟩,
    C5_thrust_to_percent 0 10 5 80 hap (by norm_num) (by norm_num)⟩

/-! ## Altitude/throttle time-step handling
(`TLAB_Throttle_Controller`, lines 648-684) -/

/-- The derivative-estimation state of `TLAB_Throttle_Controller`:
previous altitude sample `z_old` [cm], previous pitch sample, the held
derivative estimates `dz` (altitude rate) and `speed_pitch` (pitch rate),
the anomaly counter `err_count`, and the previous cycle timestamp [us]. -/
structure ThrottleTimeState where
  z_old : ℤ
  pitch_old : ℝ
  dz : ℝ
  speed_pitch : ℝ
  err_count : ℕ
  prev_time_Th : ℕ

/-- One cycle of the backward-difference block: `past_time_Th =
current_time_Th - prev_time_Th`; if it is zero, increment `err_count`,
refresh the stored samples and hold `dz`/`speed_pitch`; otherwise
differentiate. -/
noncomputable def throttle_time_update (st : ThrottleTimeState)
    (current_time_Th : ℕ) (z_cm : ℤ) (pitch : ℝ) : ThrottleTimeState :=
  let past_time_Th : ℕ := current_time_Th - st.prev_time_Th
  let past_time_Th_f : ℝ := (past_time_Th : ℝ) * 1e-6
  if past_time_Th = 0 then
    { st with
      err_count := st.err_count + 1
      z_old := z_cm
      pitch_old := pitch
      prev_time_Th := current_time_Th }
  else
    let dz_f : ℝ := ((z_cm - st.z_old : ℤ) : ℝ)
    let d_pitch : ℝ := pitch - st.pitch_old
    { z_old := z_cm
      pitch_old := pitch
      dz := dz_f * 0.01 / past_time_Th_f
      speed_pitch := d_pitch / past_time_Th_f
      err_count := st.err_count
      prev_time_Th := current_time_Th }

/-- C8: on a cycle whose wall-clock delta is zero, the error counter is
incremented and the derivative estimates `dz` and `speed_pitch` keep their
previous values (no division by the time delta is performed). -/
theorem C8_zero_dt_holds_derivatives (st : ThrottleTimeState)
    (current_time_Th : ℕ) (z_cm : ℤ) (pitch : ℝ)
    (h : current_time_Th = st.prev_time_Th) :
    (throttle_time_update st current_time_Th z_cm pitch).err_count =
      st.err_count + 1 ∧
    (throttle_time_update st current_time_Th z_cm pitch).dz = st.dz ∧
    (throttle_time_update st current_time_Th z_cm pitch).speed_pitch =
      st.speed_pitch := by
  have hz : current_time_Th - st.prev_time_Th = 0 := by
    rw [h]
    exact Nat.sub_self _
  unfold throttle_time_update
  rw [if_pos hz]
  exact ⟨rfl, rfl, rfl⟩

/-- A concrete derivative-estimation state used to exercise the zero-delta
branch. -/
def throttleStateEx : ThrottleTimeState :=
  { z_old := 7
    pitch_old := 2
    dz := 3
    speed_pitch := 4
    err_count := 9
    prev_time_Th := 1000 }

/-- Witness for C8 at a concrete state and a repeated timestamp. -/
theorem C8_zero_dt_holds_derivatives_witness :
    (1000 : ℕ) = throttleStateEx.prev_time_Th ∧
    ((throttle_time_update throttleStateEx 1000 8 1).err_count = 9 + 1 ∧
     (throttle_time_update throttleStateEx 1000 8 1).dz = 3 ∧
     (throttle_time_update throttleStateEx 1000 8 1).speed_pitch = 4) :=
  ⟨rfl, C8_zero_dt_holds_derivatives throttleStateEx 1000 8 1 rfl⟩

/-! ## Yaw output saturation (`calc_nav_yaw_coordinated`, lines 896-911) -/

/-- The rudder command written by `calc_nav_yaw_coordinated`: the selected
controller output (line-trace for `TPARAM_Bar_Control_Mode == 1`, constant
output for mode 2, the 2D trace controller otherwise), saturated by
`constrain_int16(., -4500, 4500)`.  The three controller outputs are passed
as parameters. -/
def calc_nav_yaw_rudder (Bar_Control_Mode : ℤ)
    (line_out const_out trace_out : ℤ) : ℤ :=
  if Bar_Control_Mode = 1 then constrain_int32 line_out (-4500) 4500
  else if Bar_Control_Mode = 2 then constrain_int32 const_out (-4500) 4500
  else constrain_int32 trace_out (-4500) 4500

/-- C9: for every control-mode selection and every controller output, the
rudder deflection command lies in `[-4500, 4500]` centidegrees. -/
theorem C9_rudder_bounded (Bar_Control_Mode line_out const_out trace_out : ℤ) :
    -4500 ≤ calc_nav_yaw_rudder Bar_Control_Mode line_out const_out trace_out ∧
    calc_nav_yaw_rudder Bar_Control_Mode line_out const_out trace_out ≤ 4500 := by
  unfold calc_nav_yaw_rudder
  split_ifs <;> exact constrain_int32_mem (by norm_num) _

/-! ## Supervisory line/circle mode switching
(`TLAB_Combine_Controller`, lines 1338-1373, with the heading-progress
integration of `TLAB_Circle_Trace_Controller`, lines 1191-1215, and
`init_TLAB_Controller_AUTO`, lines 958-967)

The geometric quantities consumed by the transition conditions
(`state_UAV_x`, `state_UAV_y` computed by `TLAB_Line_Trace_Controller` and
the circle-center bearing `theta`) are per-cycle inputs; the supervisor's
persistent variables form the state. -/

/-- A one-shot GCS notification emitted on a guidance-mode transition. -/
inductive ModeNote where
  | toCircle
  | toLine
deriving DecidableEq

/-- Persistent supervisor state: the active control mode
(`TLAB_Control_flag`: 0 = line, 1/2 = circle left/right), the armed
line-to-circle trigger, the pending `init_TLAB_Controller_AUTO` latch, the
accumulated heading progress `Int_theta` and the previous bearing sample. -/
structure CombineState where
  control_flag : ℤ
  change_to_circle : Bool
  init_auto : Bool
  Int_theta : ℝ
  prev_theta : ℝ

/-- Supervisor configuration: lateral-deviation bound `TPARAM_change_y`,
orbit count `TPARAM_orbit_num`, the alternate-orbit option, the configured
circle direction `TPARAM_control_mode`, and `TPARAM_calc_GCRS`. -/
structure CombineConfig where
  change_y : ℝ
  orbit_num : ℝ
  alternate : Bool
  control_mode_param : ℤ
  calc_GCRS : ℤ

/-- Per-cycle inputs: the waypoint-navigation latch, the current nav command
index, the path-frame position of the vehicle computed by the line-trace
controller, and the current circle-center bearing sample. -/
structure CombineInput where
  wp_nav : Bool
  cmd_index : ℕ
  state_UAV_x : ℝ
  state_UAV_y : ℝ
  theta : ℝ

/-- The state update performed by `TLAB_Circle_Trace_Controller` on the
supervisor-relevant variables: for `calc_GCRS == 0` none of them change; in
the default branch the `init_TLAB_Controller_AUTO` latch resets `Int_theta`,
otherwise `Int_theta` accumulates the wrapped bearing increment. -/
noncomputable def circle_trace_update (cfg : CombineConfig) (st : CombineState)
    (inp : CombineInput) : CombineState :=
  if cfg.calc_GCRS = 0 then st
  else if st.init_auto then
    { st with init_auto := false, Int_theta := 0, prev_theta := inp.theta }
  else
    { st with Int_theta := st.Int_theta + wrap_PI (inp.theta - st.prev_theta),
              prev_theta := inp.theta }

/-- The circle mode selected on a LINE-to-CIRCLE transition:
`(TLAB_CMD_index % 2) + 1` when alternate orbits are enabled, otherwise the
configured direction (`1` iff `TPARAM_control_mode == 1`, else `2`). -/
def combine_next_flag (cfg : CombineConfig) (inp : CombineInput) : ℤ :=
  if cfg.alternate then ((inp.cmd_index % 2 : ℕ) : ℤ) + 1
  else if cfg.control_mode_param = 1 then 1 else 2

/-- One cycle of `TLAB_Combine_Controller`: returns the next supervisor state
and the notification emitted this cycle (if any). -/
noncomputable def TLAB_Combine_Controller_step (cfg : CombineConfig)
    (st : CombineState) (inp : CombineInput) :
    CombineState × Option ModeNote :=
  if inp.wp_nav = false then
    ({ st with control_flag := 0 }, none)
  else if st.control_flag = 0 then
    if st.change_to_circle then
      let st1 : CombineState :=
        { st with change_to_circle := false,
                  control_flag := combine_next_flag cfg inp,
                  init_auto := true }
      (circle_trace_update cfg st1 inp, some ModeNote.toCircle)
    else
      (st, none)
  else
    if |st.Int_theta| > 2 * π * cfg.orbit_num ∧ inp.state_UAV_x > 0 ∧
        |inp.state_UAV_y| < cfg.change_y then
      ({ st with control_flag := 0, Int_theta := 0 }, some ModeNote.toLine)
    else
      (circle_trace_update cfg st inp, none)

/-- `TLAB_Circle_Trace_Controller` never changes the active control mode. -/
lemma circle_trace_update_control_flag (cfg : CombineConfig)
    (st : CombineState) (inp : CombineInput) :
    (circle_trace_update cfg st inp).control_flag = st.control_flag := by
  unfold circle_trace_update
  split_ifs <;> rfl

/-- `TLAB_Circle_Trace_Controller` never re-arms the line-to-circle trigger. -/
lemma circle_trace_update_change_to_circle (cfg : CombineConfig)
    (st : CombineState) (inp : CombineInput) :
    (circle_trace_update cfg st inp).change_to_circle = st.change_to_circle := by
  unfold circle_trace_update
  split_ifs <;> rfl

/-- C6: in circle mode, the CIRCLE-to-LINE transition (and its one-shot
notification) fires exactly when `|Int_theta| > 2*pi*orbit_num`, the vehicle
is ahead of the path (`state_UAV_x > 0`) and the lateral deviation is bounded
(`|state_UAV_y| < change_y`); on that transition the mode returns to LINE and
the angular-progress integrator `Int_theta` is reset to zero. -/
theorem C6_circle_to_line_transition (cfg : CombineConfig)
    (st : CombineState) (inp : CombineInput)
    (hnav : inp.wp_nav = true) (hcirc : st.control_flag ≠ 0) :
    ((TLAB_Combine_Controller_step cfg st inp).2 = some ModeNote.toLine ↔
      (|st.Int_theta| > 2 * π * cfg.orbit_num ∧ inp.state_UAV_x > 0 ∧
       |inp.state_UAV_y| < cfg.change_y)) ∧
    ((|st.Int_theta| > 2 * π * cfg.orbit_num ∧ inp.state_UAV_x > 0 ∧
       |inp.state_UAV_y| < cfg.change_y) →
      (TLAB_Combine_Controller_step cfg st inp).1.control_flag = 0 ∧
      (TLAB_Combine_Controller_step cfg st inp).1.Int_theta = 0) := by
  unfold TLAB_Combine_Controller_step
  rw [hnav, if_neg (by simp : ¬ (true = false)), if_neg hcirc]
  by_cases hcond : |st.Int_theta| > 2 * π * cfg.orbit_num ∧ inp.state_UAV_x > 0 ∧
      |inp.state_UAV_y| < cfg.change_y
  · rw [if_pos hcond]
    exact ⟨⟨fun _ => hcond, fun _ => rfl⟩, fun _ => ⟨rfl, rfl⟩⟩
  · rw [if_neg hcond]
    exact ⟨⟨fun hsome => absurd hsome (by simp), fun hc => absurd hc hcond⟩,
      fun hc => absurd hc hcond⟩

/-- A concrete supervisor configuration exercising the transitions. -/
noncomputable def combineCfgEx : CombineConfig :=
  { change_y := 5
    orbit_num := 0
    alternate := false
    control_mode_param := 1
    calc_GCRS := 1 }

/-- A concrete circle-mode supervisor state with accumulated progress. -/
noncomputable def combineStEx : CombineState :=
  { control_flag := 1
    change_to_circle := false
    init_auto := false
    Int_theta := 1
    prev_theta := 0 }

/-- A concrete input ahead of the path with zero lateral deviation. -/
noncomputable def combineInpEx : CombineInput :=
  { wp_nav := true
    cmd_index := 0
    state_UAV_x := 1
    state_UAV_y := 0
    theta := 0 }

/-- Witness for C6 at the concrete configuration, state and input. -/
theorem C6_circle_to_line_transition_witness :
    (combineInpEx.wp_nav = true ∧ combineStEx.control_flag ≠ 0) ∧
    (((TLAB_Combine_Controller_step combineCfgEx combineStEx combineInpEx).2 =
        some ModeNote.toLine ↔
      (|combineStEx.Int_theta| > 2 * π * combineCfgEx.orbit_num ∧
       combineInpEx.state_UAV_x > 0 ∧
       |combineInpEx.state_UAV_y| < combineCfgEx.change_y)) ∧
     ((|combineStEx.Int_theta| > 2 * π * combineCfgEx.orbit_num ∧
       combineInpEx.state_UAV_x > 0 ∧
       |combineInpEx.state_UAV_y| < combineCfgEx.change_y) →
      (TLAB_Combine_Controller_step combineCfgEx combineStEx combineInpEx).1.control_flag = 0 ∧
      (TLAB_Combine_Controller_step combineCfgEx combineStEx combineInpEx).1.Int_theta = 0)) :=
  ⟨⟨rfl, by norm_num [combineStEx]⟩,
   C6_circle_to_line_transition combineCfgEx combineStEx combineInpEx rfl
     (by norm_num [combineStEx])⟩

/-- A concrete line-mode supervisor state with the trigger armed. -/
noncomputable def combineStLineEx : CombineState :=
  { control_flag := 0
    change_to_circle := true
    init_auto := false
    Int_theta := 3
    prev_theta := 0 }


/-- `combine_next_flag` always selects a circle mode (1 or 2). -/
lemma combine_next_flag_mem (cfg : CombineConfig) (inp : CombineInput) :
    combine_next_flag cfg inp = 1 ∨ combine_next_flag cfg inp = 2 := by
  unfold combine_next_flag
  by_cases halt : cfg.alternate
  · rw [if_pos halt]
    rcases Nat.mod_two_eq_zero_or_one inp.cmd_index with h2 | h2 <;> rw [h2]
    · left
      norm_num
    · right
      norm_num
  · rw [if_neg halt]
    by_cases hcm : cfg.control_mode_param = 1
    · rw [if_pos hcm]
      exact Or.inl rfl
    · rw [if_neg hcm]
      exact Or.inr rfl

/-- The state produced by a LINE-to-CIRCLE transition cycle. -/
lemma combine_step_transition_state (cfg : CombineConfig)
    (st : CombineState) (inp : CombineInput)
    (hnav : inp.wp_nav = true) (hline : st.control_flag = 0)
    (htrig : st.change_to_circle = true) (hGCRS : ¬ cfg.calc_GCRS = 0) :
    TLAB_Combine_Controller_step cfg st inp =
      ({ control_flag := combine_next_flag cfg inp, change_to_circle := false, init_auto := false, Int_theta := 0, prev_theta := inp.theta }, some ModeNote.toCircle) := by
  unfold TLAB_Combine_Controller_step
  rw [hnav, if_neg (by simp : ¬ (true = false)), if_pos hline, htrig,
    if_pos rfl]
  dsimp only
  unfold circle_trace_update
  dsimp only
  rw [if_neg hGCRS, if_pos rfl]

/-- A circle-mode cycle whose exit condition fails changes no mode and emits
no notification: it just runs the circle-trace controller. -/
lemma combine_step_circle_no_transition (cfg : CombineConfig)
    (st : CombineState) (inp : CombineInput)
    (hnav : inp.wp_nav = true) (hcirc : ¬ st.control_flag = 0)
    (hnc : ¬ (|st.Int_theta| > 2 * π * cfg.orbit_num ∧ inp.state_UAV_x > 0 ∧
        |inp.state_UAV_y| < cfg.change_y)) :
    TLAB_Combine_Controller_step cfg st inp =
      (circle_trace_update cfg st inp, none) := by
  unfold TLAB_Combine_Controller_step
  rw [hnav, if_neg (by simp : ¬ (true = false)), if_neg hcirc, if_neg hnc]

/-- C7: in LINE mode with the circle-switch trigger armed, one cycle emits
the circle-trace notification exactly once and switches the mode to CIRCLE
(flag 1 or 2), clearing the trigger and resetting the heading-progress
integrator; a further cycle (any input with waypoint navigation active)
emits no notification and keeps the mode unchanged. -/
theorem C7_line_to_circle_once (cfg : CombineConfig)
    (st : CombineState) (inp : CombineInput)
    (hnav : inp.wp_nav = true) (hline : st.control_flag = 0)
    (htrig : st.change_to_circle = true) (hGCRS : ¬ cfg.calc_GCRS = 0)
    (horb : 0 ≤ cfg.orbit_num) :
    (TLAB_Combine_Controller_step cfg st inp).2 = some ModeNote.toCircle ∧
    ((TLAB_Combine_Controller_step cfg st inp).1.control_flag = 1 ∨
     (TLAB_Combine_Controller_step cfg st inp).1.control_flag = 2) ∧
    (TLAB_Combine_Controller_step cfg st inp).1.change_to_circle = false ∧
    (TLAB_Combine_Controller_step cfg st inp).1.Int_theta = 0 ∧
    (∀ inp2 : CombineInput, inp2.wp_nav = true →
      (TLAB_Combine_Controller_step cfg
          (TLAB_Combine_Controller_step cfg st inp).1 inp2).2 = none ∧
      (TLAB_Combine_Controller_step cfg
          (TLAB_Combine_Controller_step cfg st inp).1 inp2).1.control_flag =
        (TLAB_Combine_Controller_step cfg st inp).1.control_flag) := by
  have hstep := combine_step_transition_state cfg st inp hnav hline htrig hGCRS
  have hf12 : (TLAB_Combine_Controller_step cfg st inp).1.control_flag = 1 ∨
      (TLAB_Combine_Controller_step cfg st inp).1.control_flag = 2 := by
    rw [hstep]
    exact combine_next_flag_mem cfg inp
  have hfne : ¬ (TLAB_Combine_Controller_step cfg st inp).1.control_flag = 0 := by
    rcases hf12 with h | h <;> rw [h] <;> norm_num
  have hInt : (TLAB_Combine_Controller_step cfg st inp).1.Int_theta = 0 := by
    rw [hstep]
  refine ⟨by rw [hstep], hf12, by rw [hstep], hInt, ?_⟩
  intro inp2 hnav2
  have hnotcond : ¬ (|(TLAB_Combine_Controller_step cfg st inp).1.Int_theta| >
      2 * π * cfg.orbit_num ∧ inp2.state_UAV_x > 0 ∧
      |inp2.state_UAV_y| < cfg.change_y) := by
    rw [hInt]
    rintro ⟨habs, -, -⟩
    have hnn : 0 ≤ 2 * π * cfg.orbit_num := by positivity
    simp only [abs_zero] at habs
    linarith
  have hstep2 := combine_step_circle_no_transition cfg
    (TLAB_Combine_Controller_step cfg st inp).1 inp2 hnav2 hfne hnotcond
  rw [hstep2]
  exact ⟨rfl, circle_trace_update_control_flag cfg _ inp2⟩

/-- Witness for C7 at the concrete configuration, armed line-mode state and
input. -/
theorem C7_line_to_circle_once_witness :
    (combineInpEx.wp_nav = true ∧ combineStLineEx.control_flag = 0 ∧
     combineStLineEx.change_to_circle = true ∧ ¬ combineCfgEx.calc_GCRS = 0 ∧
     0 ≤ combineCfgEx.orbit_num) ∧
    ((TLAB_Combine_Controller_step combineCfgEx combineStLineEx combineInpEx).2 =
        some ModeNote.toCircle ∧
     ((TLAB_Combine_Controller_step combineCfgEx combineStLineEx combineInpEx).1.control_flag = 1 ∨
      (TLAB_Combine_Controller_step combineCfgEx combineStLineEx combineInpEx).1.control_flag = 2) ∧
     (TLAB_Combine_Controller_step combineCfgEx combineStLineEx combineInpEx).1.change_to_circle = false ∧
     (TLAB_Combine_Controller_step combineCfgEx combineStLineEx combineInpEx).1.Int_theta = 0 ∧
     (∀ inp2 : CombineInput, inp2.wp_nav = true →
       (TLAB_Combine_Controller_step combineCfgEx
           (TLAB_Combine_Controller_step combineCfgEx combineStLineEx combineInpEx).1 inp2).2 = none ∧
       (TLAB_Combine_Controller_step combineCfgEx
           (TLAB_Combine_Controller_step combineCfgEx combineStLineEx combineInpEx).1 inp2).1.control_flag =
         (TLAB_Combine_Controller_step combineCfgEx combineStLineEx combineInpEx).1.control_flag)) :=
  ⟨⟨rfl, rfl, rfl, by norm_num [combineCfgEx], by norm_num [combineCfgEx]⟩,
   C7_line_to_circle_once combineCfgEx combineStLineEx combineInpEx rfl rfl rfl
     (by norm_num [combineCfgEx]) (by norm_num [combineCfgEx])⟩

/-! ## The 2D trace controller (`TLAB_2D_Trace_Controller`, lines 1915-2023,
its initializer `init_TLAB_2D_Trace_Controller`, lines 1393-1440, and the
path generator `TLAB_generate_2D_Path`, lines 1447-1906) -/

/-- Configuration parameters (`g.TPARAM_*`) read by the 2D trace controller. -/
structure Trace2DConfig where
  v_a : ℝ
  k_prop_const : ℝ
  Flight_Plan : ℤ
  Fx : Fin 3 → ℝ
  Fchi : Fin 4 → Fin 3 → ℝ
  v_g_min : ℝ
  v_g_max : ℝ
  kappa_max : ℝ
  kappa_min : ℝ
  u_x_max : ℝ
  chiF_max_deg : ℝ
  servo_neutral : ℝ
  r : ℝ
  dzeta : ℝ
  WP0_param : ℝ × ℝ

/-- Persistent member variables of the 2D trace controller: the `yet_init`
latch, the values captured at initialization, and the path-generator state
(`Path_Mode`, arc length `s`, parameter `zeta`, endpoints, waypoint index,
pending-switch flag and the Lissajous search accumulators). -/
structure Trace2DState where
  yet_init : Bool
  Path_Origin : ℝ × ℝ
  Flight_Plan : ℤ
  v_a : ℝ
  k_prop_const : ℝ
  Fx : Fin 3 → ℝ
  Fchi : Fin 4 → Fin 3 → ℝ
  z1_max : ℝ
  z1_min : ℝ
  z2_max : ℝ
  z2_min : ℝ
  Path_Mode : ℤ
  s : ℝ
  zeta : ℝ
  P0 : ℝ × ℝ
  P1 : ℝ × ℝ
  dist_WPs : ℝ
  i_now_CMD : ℕ
  u_x : ℝ
  t_now : ℕ
  change_path_flag : Bool
  i_zeta : ℕ
  s_calc : ℝ

/-- Per-cycle inputs of the 2D trace controller: the clock [us], the current
nav command index, the waypoint and vehicle locations (planar, absolute),
the yaw [rad], the GPS ground course [deg] and the ground speed [m/s]. -/
structure Trace2DInput where
  t : ℕ
  cmd_index : ℕ
  prev_WP : ℝ × ℝ
  next_WP : ℝ × ℝ
  cur_loc : ℝ × ℝ
  yaw : ℝ
  gc_deg : ℝ
  v_g : ℝ

/-- `init_TLAB_2D_Trace_Controller`: capture the configuration, anchor the
path origin at the previous waypoint, derive the fuzzy ranges
`z1_min/z1_max/z2_min/z2_max`, and reset the path-generator state
(`Path_Mode = 0`, `s = 0`, `zeta = 0`, endpoints from the current waypoint
pair, `i_now_CMD = 0`, `u_x = 0`, clock captured). -/
noncomputable def init_TLAB_2D_Trace_Controller (cfg : Trace2DConfig)
    (st : Trace2DState) (inp : Trace2DInput) : Trace2DState :=
  let chiF_max := cfg.chiF_max_deg * π / 180
  { st with
    v_a := cfg.v_a
    k_prop_const := cfg.k_prop_const
    Path_Origin := inp.prev_WP
    Flight_Plan := cfg.Flight_Plan
    Fx := cfg.Fx
    Fchi := cfg.Fchi
    z1_max := (cfg.v_g_max + cfg.u_x_max) * cfg.kappa_max
    z1_min := (cfg.v_g_max + cfg.u_x_max) * cfg.kappa_min
    z2_max := cfg.v_g_max
    z2_min := cfg.v_g_max * Real.sin chiF_max / chiF_max
    Path_Mode := 0
    s := 0
    zeta := 0
    P0 := location_diff inp.prev_WP inp.prev_WP
    P1 := location_diff inp.prev_WP inp.next_WP
    dist_WPs := get_distance inp.prev_WP inp.next_WP
    i_now_CMD := 0
    u_x := 0
    t_now := inp.t }

/-- The waypoint-capture block repeated throughout the flight-plan state
machine: `dist_WPs = get_distance(A, B)`, `P0 = swap(location_diff(origin, A))`,
`P1 = swap(location_diff(origin, B))`. Returns `(P0, P1, dist_WPs)`. -/
noncomputable def capture_WPs (origin A B : ℝ × ℝ) : (ℝ × ℝ) × (ℝ × ℝ) × ℝ :=
  (swap_xy (location_diff origin A), swap_xy (location_diff origin B),
   get_distance A B)

/-- The flight-plan state machine at the top of `TLAB_generate_2D_Path`
(the `switch (Flight_Plan)` statement, lines 1462-1809): waypoint-change
handling, arming of the pending path switch and the primitive transitions.
Returns the updated state together with the local `zeta_prev` used by the
`dot_zeta` backward difference (reset to 0 on a primitive switch in plans
1-4; plan 0 resets the member `zeta` itself). -/
noncomputable def TLAB_generate_2D_Path_plan (cfg : Trace2DConfig)
    (st0 : Trace2DState) (inp : Trace2DInput) : Trace2DState × ℝ :=
  let i_prev_CMD := st0.i_now_CMD
  let i_now_CMD := inp.cmd_index
  let st := { st0 with i_now_CMD := i_now_CMD }
  let zeta_prev := st.zeta
  if st.Flight_Plan = 0 then
    -- Mode 0: straight chains throughout
    let st := { st with Path_Mode := 0 }
    let st : Trace2DState :=
      if st.zeta < 0.1 ∧ ¬ i_now_CMD = i_prev_CMD then
        let c := capture_WPs st.Path_Origin inp.prev_WP inp.next_WP
        { st with P0 := c.1, P1 := c.2.1, dist_WPs := c.2.2 }
      else if st.zeta ≥ 0.1 ∧ ¬ i_now_CMD = i_prev_CMD then
        { st with change_path_flag := true }
      else st
    if st.change_path_flag = true ∧ st.zeta ≥ 1 then
      let st := { st with s := 0, zeta := 0, change_path_flag := false }
      if i_now_CMD = 2 then
        let c := capture_WPs st.Path_Origin cfg.WP0_param inp.next_WP
        ({ st with P0 := c.1, P1 := c.2.1, dist_WPs := c.2.2 }, (zeta_prev:ℝ))
      else
        let c := capture_WPs st.Path_Origin inp.prev_WP inp.next_WP
        ({ st with P0 := c.1, P1 := c.2.1, dist_WPs := c.2.2 }, (zeta_prev:ℝ))
    else (st, zeta_prev)
  else if st.Flight_Plan = 1 then
    -- Mode 1: straight (from the configured WP0) then circle, right turn
    if st.Path_Mode = 0 then
      let st : Trace2DState :=
        if st.zeta < 0.1 ∧ ¬ i_now_CMD = i_prev_CMD then
          let c := capture_WPs st.Path_Origin cfg.WP0_param inp.next_WP
          { st with Path_Mode := 0, P0 := c.1, P1 := c.2.1, dist_WPs := c.2.2 }
        else if st.zeta ≥ 0.1 ∧ ¬ i_now_CMD = i_prev_CMD then
          { st with change_path_flag := true }
        else st
      if st.change_path_flag = true ∧ st.zeta ≥ 1 then
        let c := capture_WPs st.Path_Origin inp.prev_WP inp.next_WP
        ({ st with s := 0, change_path_flag := false, P0 := c.1, P1 := c.2.1, dist_WPs := c.2.2, Path_Mode := 5 }, (0:ℝ))
      else (st, zeta_prev)
    else (st, zeta_prev)
  else if st.Flight_Plan = 2 then
    -- Mode 2: straight chains with a figure-eight Lissajous at CMD 3
    let r1 :=
      if st.Path_Mode = 0 then
        let st : Trace2DState :=
          if st.zeta < 0.1 ∧ ¬ i_now_CMD = i_prev_CMD then
            let c := capture_WPs st.Path_Origin inp.prev_WP inp.next_WP
            { st with P0 := c.1, P1 := c.2.1, dist_WPs := c.2.2 }
          else if st.zeta ≥ 0.1 ∧ ¬ i_now_CMD = i_prev_CMD then
            { st with change_path_flag := true }
          else st
        if st.change_path_flag = true ∧ st.zeta ≥ 1 then
          let c := capture_WPs st.Path_Origin inp.prev_WP inp.next_WP
          ({ st with s := 0, change_path_flag := false, P0 := c.1, P1 := c.2.1, dist_WPs := c.2.2, Path_Mode := if i_now_CMD = 3 then 6 else st.Path_Mode }, (0:ℝ))
        else (st, zeta_prev)
      else (st, zeta_prev)
    let st := r1.1
    let zeta_prev := r1.2
    if st.Path_Mode = 6 then
      let st : Trace2DState :=
        if st.zeta ≥ 0.1 ∧ ¬ i_now_CMD = i_prev_CMD then
          { st with change_path_flag := true }
        else st
      if st.change_path_flag = true ∧ st.zeta ≥ 4 * π then
        let c := capture_WPs st.Path_Origin inp.prev_WP inp.next_WP
        ({ st with s := 0, change_path_flag := false, P0 := c.1, P1 := c.2.1, dist_WPs := c.2.2, Path_Mode := 0 }, (0:ℝ))
      else (st, zeta_prev)
    else (st, zeta_prev)
  else if st.Flight_Plan = 3 then
    -- Mode 3: straight chains with the UEC-mark Lissajous at CMD 3
    let r1 :=
      if st.Path_Mode = 0 then
        let st : Trace2DState :=
          if st.zeta < 0.1 ∧ ¬ i_now_CMD = i_prev_CMD then
            let c := capture_WPs st.Path_Origin inp.prev_WP inp.next_WP
            { st with P0 := c.1, P1 := c.2.1, dist_WPs := c.2.2 }
          else if st.zeta ≥ 0.1 ∧ ¬ i_now_CMD = i_prev_CMD then
            { st with change_path_flag := true }
          else st
        if st.change_path_flag = true ∧ st.zeta ≥ 1 then
          let c := capture_WPs st.Path_Origin inp.prev_WP inp.next_WP
          if i_now_CMD = 3 then
            ({ st with s := 0, change_path_flag := false, P0 := c.1, P1 := (c.2.1.1 - cfg.r, c.2.1.2 - cfg.r), dist_WPs := c.2.2, Path_Mode := 3 }, (0:ℝ))
          else
            ({ st with s := 0, change_path_flag := false, P0 := c.1, P1 := c.2.1, dist_WPs := c.2.2 }, (0:ℝ))
        else (st, zeta_prev)
      else (st, zeta_prev)
    let st := r1.1
    let zeta_prev := r1.2
    if st.Path_Mode = 3 then
      let st : Trace2DState :=
        if st.zeta ≥ 0.1 ∧ ¬ i_now_CMD = i_prev_CMD then
          { st with change_path_flag := true }
        else st
      if st.change_path_flag = true ∧ st.zeta ≥ π then
        let c := capture_WPs st.Path_Origin inp.prev_WP inp.next_WP
        ({ st with s := 0, change_path_flag := false, P0 := c.1, P1 := c.2.1, dist_WPs := c.2.2, Path_Mode := 0 }, (0:ℝ))
      else (st, zeta_prev)
    else (st, zeta_prev)
  else if st.Flight_Plan = 4 then
    -- Mode 4: straight (from the configured WP0) then circle, left turn
    if st.Path_Mode = 0 then
      let st : Trace2DState :=
        if st.zeta < 0.1 ∧ ¬ i_now_CMD = i_prev_CMD then
          let c := capture_WPs st.Path_Origin cfg.WP0_param inp.next_WP
          { st with Path_Mode := 0, P0 := c.1, P1 := c.2.1, dist_WPs := c.2.2 }
        else if st.zeta ≥ 0.1 ∧ ¬ i_now_CMD = i_prev_CMD then
          { st with change_path_flag := true }
        else st
      if st.change_path_flag = true ∧ st.zeta ≥ 1 then
        let c := capture_WPs st.Path_Origin inp.prev_WP inp.next_WP
        ({ st with s := 0, change_path_flag := false, P0 := c.1, P1 := c.2.1, dist_WPs := c.2.2, Path_Mode := 4 }, (0:ℝ))
      else (st, zeta_prev)
    else (st, zeta_prev)
  else (st, zeta_prev)

/-- A null path-state block (used only for the unreachable `default` case of
the `switch (Path_Mode)` statement and for the non-terminating branch of the
Lissajous search, where the source never returns). -/
noncomputable def pathOutNull : PathOut :=
  { zeta := 0
    dot_zeta := 0
    x_d := 0
    y_d := 0
    chi_d := 0
    dot_chi_d := 0
    kappa := 0 }

open Classical in
/-- The `switch (Path_Mode)` statement of `TLAB_generate_2D_Path`
(lines 1811-1905): update `zeta` (and, for the Lissajous modes 3 and 6, the
search accumulators `i_zeta` and `s_calc`) and produce the desired path
state. -/
noncomputable def TLAB_generate_2D_Path_out (cfg : Trace2DConfig)
    (st : Trace2DState) (zeta_prev dt : ℝ) : Trace2DState × PathOut :=
  if st.Path_Mode = 0 then
    -- straight segment defined by P0, P1
    let p := path_mode0 st.s st.dist_WPs zeta_prev dt st.P0 st.P1
    ({ st with zeta := p.zeta }, p)
  else if st.Path_Mode = 1 then
    -- circle through P0, P1 (left turn)
    let zeta := st.s / st.dist_WPs * 2
    let dot_zeta := (zeta - zeta_prev) / dt
    ({ st with zeta := zeta },
     { zeta := zeta
       dot_zeta := dot_zeta
       x_d := st.dist_WPs / 2 * Real.cos zeta + (st.P0.1 + st.P1.1) / 2
       y_d := st.dist_WPs / 2 * Real.sin zeta + (st.P0.2 + st.P1.2) / 2
       chi_d := atan2 (Real.cos zeta) (Real.sin zeta)
       dot_chi_d := - dot_zeta
       kappa := 2 / st.dist_WPs })
  else if st.Path_Mode = 2 then
    -- circle through P0, P1 (right turn)
    let zeta := st.s / st.dist_WPs * 2
    let dot_zeta := (zeta - zeta_prev) / dt
    ({ st with zeta := zeta },
     { zeta := zeta
       dot_zeta := dot_zeta
       x_d := st.dist_WPs / 2 * Real.cos (- zeta) + (st.P0.1 + st.P1.1) / 2
       y_d := st.dist_WPs / 2 * Real.sin (- zeta) + (st.P0.2 + st.P1.2) / 2
       chi_d := atan2 (Real.cos zeta) (- Real.sin zeta)
       dot_chi_d := dot_zeta
       kappa := 2 / st.dist_WPs })
  else if st.Path_Mode = 3 then
    -- Lissajous (UEC-mark): zeta found numerically from s
    if h : lissajous_terminates cfg.r cfg.dzeta st.s_calc st.s st.i_zeta then
      let n := Nat.find h
      let zeta := ((st.i_zeta + n : ℕ) : ℝ) * cfg.dzeta
      let dot_zeta := (zeta - zeta_prev) / dt
      ({ st with zeta := zeta, i_zeta := st.i_zeta + n, s_calc := lissajous_s_calc cfg.r cfg.dzeta st.s_calc st.i_zeta n },
       { zeta := zeta
         dot_zeta := dot_zeta
         x_d := - cfg.r * Real.cos (5 * zeta) + st.P1.1
         y_d := cfg.r * Real.cos (6 * zeta) + st.P1.2
         chi_d := atan2 (6 / 5 * Real.sin (6 * zeta)) (Real.sin (5 * zeta))
         dot_chi_d := - 30 * dot_zeta * (Real.sin (11 * zeta) - 11 * Real.sin zeta) /
           (25 * Real.cos (10 * zeta) + 36 * Real.cos (12 * zeta) - 61)
         kappa := 15 * |11 * Real.sin zeta - Real.sin (11 * zeta)| /
           (cfg.r * (25 * Real.sin (5 * zeta) ^ 2 + 36 * Real.sin (6 * zeta) ^ 2) ^ (1.5 : ℝ)) })
    else (st, pathOutNull)
  else if st.Path_Mode = 4 then
    -- circle of radius r around P1 (left turn), initial phase +PI
    let zeta := st.s / cfg.r
    let dot_zeta := (zeta - zeta_prev) / dt
    ({ st with zeta := zeta },
     { zeta := zeta
       dot_zeta := dot_zeta
       x_d := - cfg.r * Real.cos zeta + st.P1.1
       y_d := - cfg.r * Real.sin zeta + st.P1.2
       chi_d := atan2 (Real.cos zeta) (Real.sin zeta)
       dot_chi_d := - dot_zeta
       kappa := 1 / cfg.r })
  else if st.Path_Mode = 5 then
    -- circle of radius r around P1 (right turn), initial phase +PI
    let zeta := st.s / cfg.r
    let dot_zeta := (zeta - zeta_prev) / dt
    ({ st with zeta := zeta },
     { zeta := zeta
       dot_zeta := dot_zeta
       x_d := - cfg.r * Real.cos zeta + st.P1.1
       y_d := cfg.r * Real.sin zeta + st.P1.2
       chi_d := atan2 (- Real.cos zeta) (Real.sin zeta)
       dot_chi_d := dot_zeta
       kappa := 1 / cfg.r })
  else if st.Path_Mode = 6 then
    -- Lissajous (figure-eight): zeta found numerically from s
    if h : lissajous_terminates cfg.r cfg.dzeta st.s_calc st.s st.i_zeta then
      let n := Nat.find h
      let zeta := ((st.i_zeta + n : ℕ) : ℝ) * cfg.dzeta
      let dot_zeta := (zeta - zeta_prev) / dt
      ({ st with zeta := zeta, i_zeta := st.i_zeta + n, s_calc := lissajous_s_calc cfg.r cfg.dzeta st.s_calc st.i_zeta n },
       { zeta := zeta
         dot_zeta := dot_zeta
         x_d := 2 * cfg.r * Real.sin zeta + st.P1.1
         y_d := cfg.r * Real.sin (2 * zeta) + st.P1.2
         chi_d := atan2 (- Real.cos (2 * zeta)) (Real.cos zeta)
         dot_chi_d := - (dot_zeta * Real.sin zeta * (2 * Real.sin zeta ^ 2 - 3)) /
           (4 * Real.sin zeta ^ 4 - 5 * Real.sin zeta ^ 2 + 2)
         kappa := - (|Real.sin zeta| * (2 * Real.sin zeta ^ 2 - 3)) /
           (2 * cfg.r * (4 * Real.cos zeta ^ 4 - 3 * Real.cos zeta ^ 2 + 1) ^ (1.5 : ℝ)) })
    else (st, pathOutNull)
  else
    ({ st with zeta := 0 }, pathOutNull)

/-- The full control-law body of `TLAB_2D_Trace_Controller` (lines 1923-2022),
executed on every invocation after the first: clock update, inertial state,
path generation, Serret-Frenet transform, the gain-scheduled inputs `u_x`
and `u_chi`, the arc-length integration `s += ds*dt` and the conversion to a
servo angle [cdeg]. -/
noncomputable def TLAB_2D_Trace_Controller_core (cfg : Trace2DConfig)
    (st0 : Trace2DState) (inp : Trace2DInput) : Trace2DState × ℤ :=
  let t_prev := st0.t_now
  let dt : ℝ := ((inp.t - t_prev : ℕ) : ℝ) * 1e-6
  let xyI := location_diff st0.Path_Origin inp.cur_loc
  let xI := xyI.2
  let yI := xyI.1
  let psi := wrap_2PI (inp.yaw - π / 2)
  let chi := wrap_2PI (inp.gc_deg * π / 180 - π / 2)
  let v_g := inp.v_g
  let st1 := { st0 with t_now := inp.t }
  let pr := TLAB_generate_2D_Path_plan cfg st1 inp
  let po := TLAB_generate_2D_Path_out cfg pr.1 pr.2 dt
  let st := po.1
  let p := po.2
  let e_xI := p.x_d - xI
  let e_yI := p.y_d - yI
  let xF := - Real.cos p.chi_d * e_xI + Real.sin p.chi_d * e_yI
  let yF := - Real.sin p.chi_d * e_xI - Real.cos p.chi_d * e_yI
  let chiF := wrap_PI (p.chi_d - chi)
  let u_x := - (st.Fx 0 * xF + st.Fx 1 * yF + st.Fx 2 * chiF)
  let h := TLAB_h_chi v_g chiF u_x p.kappa st.z1_min st.z1_max st.z2_min st.z2_max
  let u_chi := - (h.1 * (st.Fchi 0 0 * xF + st.Fchi 0 1 * yF + st.Fchi 0 2 * chiF)
    + h.2.1 * (st.Fchi 1 0 * xF + st.Fchi 1 1 * yF + st.Fchi 1 2 * chiF)
    + h.2.2.1 * (st.Fchi 2 0 * xF + st.Fchi 2 1 * yF + st.Fchi 2 2 * chiF)
    + h.2.2.2 * (st.Fchi 3 0 * xF + st.Fchi 3 1 * yF + st.Fchi 3 2 * chiF))
  let ds := u_x + v_g * Real.cos chiF
  let d_angle : ℤ := truncInt (1 / st.k_prop_const * v_g / st.v_a / Real.cos (chi - psi)
    * (- u_chi + p.dot_chi_d) * 100 * 180 / π)
  let bar_angle : ℝ := (d_angle : ℝ) + cfg.servo_neutral * 100
  let u := bar_angle / 100 * π / 180
  let servo : ℤ := truncInt (Real.arcsin (constrain_float (58 / 29 * Real.sin u) (-1) 1)
    * 100 * 180 / π)
  ({ st with s := st.s + ds * dt, u_x := u_x }, servo)

/-- One invocation of `TLAB_2D_Trace_Controller` (lines 1915-2023): on the
first call (the `yet_init` latch still clear) only the initializer runs, the
latch is set and the neutral command 0 is returned; afterwards the full
control law runs. -/
noncomputable def TLAB_2D_Trace_Controller_step (cfg : Trace2DConfig)
    (st : Trace2DState) (inp : Trace2DInput) : Trace2DState × ℤ :=
  if st.yet_init = false then
    ({ init_TLAB_2D_Trace_Controller cfg st inp with yet_init := true }, 0)
  else
    TLAB_2D_Trace_Controller_core cfg st inp

/-- C10: on the first invocation after the `yet_init` latch is cleared, the
controller performs variable initialization only and returns exactly 0
(the neutral servo command) without computing the control law -- in
particular the first cycle computes no time delta `dt`, `s` and `zeta` are
reset to 0 and the latch is set; every later invocation (the latch being
set) computes and returns the full control law, and in particular the second
invocation from a fresh state does. -/
theorem C10_first_call_returns_zero (cfg : Trace2DConfig)
    (st : Trace2DState) (inp : Trace2DInput) :
    (st.yet_init = false →
      (TLAB_2D_Trace_Controller_step cfg st inp).2 = 0 ∧
      (TLAB_2D_Trace_Controller_step cfg st inp).1 =
        { init_TLAB_2D_Trace_Controller cfg st inp with yet_init := true } ∧
      (TLAB_2D_Trace_Controller_step cfg st inp).1.s = 0 ∧
      (TLAB_2D_Trace_Controller_step cfg st inp).1.zeta = 0 ∧
      (TLAB_2D_Trace_Controller_step cfg st inp).1.yet_init = true) ∧
    (st.yet_init = true →
      TLAB_2D_Trace_Controller_step cfg st inp =
        TLAB_2D_Trace_Controller_core cfg st inp) ∧
    (st.yet_init = false → ∀ inp2 : Trace2DInput,
      TLAB_2D_Trace_Controller_step cfg
          (TLAB_2D_Trace_Controller_step cfg st inp).1 inp2 =
        TLAB_2D_Trace_Controller_core cfg
          (TLAB_2D_Trace_Controller_step cfg st inp).1 inp2) := by
  refine ⟨?_, ?_, ?_⟩
  · intro h
    unfold TLAB_2D_Trace_Controller_step
    rw [h, if_pos rfl]
    exact ⟨rfl, rfl, rfl, rfl, rfl⟩
  · intro h
    unfold TLAB_2D_Trace_Controller_step
    rw [h]
    rw [if_neg (by simp : ¬ (true = false))]
  · intro h inp2
    have h1 : (TLAB_2D_Trace_Controller_step cfg st inp).1.yet_init = true := by
      unfold TLAB_2D_Trace_Controller_step
      rw [h, if_pos rfl]
    conv_lhs => rw [TLAB_2D_Trace_Controller_step]
    rw [h1, if_neg (by simp : ¬ (true = false))]

/-- A concrete controller configuration. -/
noncomputable def trace2DCfgEx : Trace2DConfig :=
  { v_a := 6
    k_prop_const := 1
    Flight_Plan := 0
    Fx := fun _ => 0
    Fchi := fun _ _ => 0
    v_g_min := 3
    v_g_max := 10
    kappa_max := 1
    kappa_min := 0
    u_x_max := 1
    chiF_max_deg := 178
    servo_neutral := 0
    r := 10
    dzeta := 1
    WP0_param := (0, 0) }

/-- A fresh (uninitialized) controller state. -/
noncomputable def trace2DStEx : Trace2DState :=
  { yet_init := false
    Path_Origin := (0, 0)
    Flight_Plan := 0
    v_a := 6
    k_prop_const := 1
    Fx := fun _ => 0
    Fchi := fun _ _ => 0
    z1_max := 1
    z1_min := 0
    z2_max := 1
    z2_min := 0
    Path_Mode := 0
    s := 0
    zeta := 0
    P0 := (0, 0)
    P1 := (0, 0)
    dist_WPs := 1
    i_now_CMD := 0
    u_x := 0
    t_now := 0
    change_path_flag := false
    i_zeta := 0
    s_calc := 0 }

/-- A concrete controller input. -/
noncomputable def trace2DInpEx : Trace2DInput :=
  { t := 0
    cmd_index := 0
    prev_WP := (0, 0)
    next_WP := (100, 0)
    cur_loc := (0, 0)
    yaw := 0
    gc_deg := 0
    v_g := 5 }

/-- Witness for C10: from the fresh state, the first call returns 0 with the
state initialized, and the second call runs the full control law. -/
theorem C10_first_call_returns_zero_witness :
    trace2DStEx.yet_init = false ∧
    ((TLAB_2D_Trace_Controller_step trace2DCfgEx trace2DStEx trace2DInpEx).2 = 0 ∧
     (TLAB_2D_Trace_Controller_step trace2DCfgEx trace2DStEx trace2DInpEx).1.s = 0 ∧
     (TLAB_2D_Trace_Controller_step trace2DCfgEx trace2DStEx trace2DInpEx).1.zeta = 0 ∧
     (TLAB_2D_Trace_Controller_step trace2DCfgEx trace2DStEx trace2DInpEx).1.yet_init = true) ∧
    TLAB_2D_Trace_Controller_step trace2DCfgEx
        (TLAB_2D_Trace_Controller_step trace2DCfgEx trace2DStEx trace2DInpEx).1 trace2DInpEx =
      TLAB_2D_Trace_Controller_core trace2DCfgEx
        (TLAB_2D_Trace_Controller_step trace2DCfgEx trace2DStEx trace2DInpEx).1 trace2DInpEx :=
  have H := C10_first_call_returns_zero trace2DCfgEx trace2DStEx trace2DInpEx
  ⟨rfl,
   ⟨(H.1 rfl).1, (H.1 rfl).2.2.1, (H.1 rfl).2.2.2.1, (H.1 rfl).2.2.2.2⟩,
   H.2.2 rfl trace2DInpEx⟩
